import Mathlib

/-!
Shallow embedding of the timer application (`src/app.js` and its variants in
`src/unnamed/part_000`): the `Timer` class (state machine), the shared
`AlarmSound` instance, and the interval-driven tick callback registered by
`Timer.start`.

Modelling choices, each tied to the source:
* `mode` is the string field `'down' | 'up'`, embedded as the enum `Mode`.
* JS numbers holding whole seconds and millisecond timestamps are embedded as
  `Int` (they are signed: `Date.now() - startTime` and
  `startSeconds - elapsed` can be negative).
* `Math.floor(x / 1000)` on an integer `x` is floor division `Int.fdiv x 1000`.
* `intervalId` is an opaque handle whose only observable role is whether a
  periodic callback is registered; it is embedded as `intervalActive : Bool`
  (`intervalId !== null`).  The interval callback can only fire while it is
  registered: the system-level `applyOp` guards `Op.tick` on `intervalActive`.
* The closure variables `startTime`/`startSeconds` captured by `start()` are
  stored in the state; they are written only by `start` and read only by the
  tick callback, which is the callback's exact data flow in the source.
* The card's `alarming` CSS class is the `alarming : Bool` field.
* The module-level `const alarm = new AlarmSound()` is a single `AlarmState`
  threaded alongside timer states; `playCount` instruments the number of
  invocations of `alarm.play()` (the `AudioContext` internals of
  `init`/`_beepLoop` are outside the state machine).
* DOM writes (`disabled`, `classList` on buttons, `textContent`) are view
  effects with no feedback into the state machine and are not part of the
  state.
-/

/-- The `mode` field of `Timer`: the strings `'down'` and `'up'`. -/
inductive Mode where
  | down : Mode
  | up : Mode
deriving DecidableEq, Repr

/-- The picker units `'h' | 'm' | 's'` (`data-unit` of the arrow buttons). -/
inductive PickerUnit where
  | h : PickerUnit
  | m : PickerUnit
  | s : PickerUnit
deriving DecidableEq, Repr

/-- State of one `Timer` instance (`src/app.js` lines 59-77), together with
the `startTime`/`startSeconds` closure captures of `start()` and the card's
`alarming` class. -/
structure TimerState where
  mode : Mode
  running : Bool
  intervalActive : Bool
  totalSeconds : Int
  targetSeconds : Int
  setH : Int
  setM : Int
  setS : Int
  startTime : Int
  startSeconds : Int
  alarming : Bool
deriving DecidableEq, Repr

/-- State of the process-wide `AlarmSound` instance (`const alarm`,
`src/app.js` line 56): the `playing` flag, plus an instrumentation counter of
how many times `play()` has been invoked. -/
structure AlarmState where
  playing : Bool
  playCount : Nat
deriving DecidableEq, Repr

/-- `AlarmSound.play()`: `init()` touches only the audio context; if already
playing it returns early, otherwise it sets `playing = true` and starts the
beep loop.  Either way the call is counted. -/
def AlarmState.play (a : AlarmState) : AlarmState :=
  { a with playing := true, playCount := a.playCount + 1 }

/-- `AlarmSound.stop()`: sets `playing = false` and silences any in-flight
tone. -/
def AlarmState.stopSound (a : AlarmState) : AlarmState :=
  { a with playing := false }

/-- The fresh `Timer` state built by the constructor (`src/app.js`
lines 60-77): mode `'down'`, not running, no interval, all counters 0.
`startTime`/`startSeconds` are closure locals that do not exist before the
first `start()`; they are initialised to 0 and are only read while
`intervalActive`. -/
def Timer.initState : TimerState :=
  { mode := Mode.down, running := false, intervalActive := false
    totalSeconds := 0, targetSeconds := 0
    setH := 0, setM := 0, setS := 0
    startTime := 0, startSeconds := 0, alarming := false }

/-- `Timer.stop()` (`src/app.js` lines 185-192): no-op when not running;
otherwise clears `running` and cancels the interval (`clearInterval`,
`intervalId = null`).  Button `disabled` toggles are view-only. -/
def Timer.stop (t : TimerState) : TimerState :=
  if t.running then { t with running := false, intervalActive := false } else t

/-- `Timer.stopAlarm()` (`src/app.js` lines 214-217): removes the card's
`alarming` class and stops the shared alarm. -/
def Timer.stopAlarm (t : TimerState) (a : AlarmState) : TimerState × AlarmState :=
  ({ t with alarming := false }, a.stopSound)

/-- `Timer._triggerAlarm()` (`src/app.js` lines 206-212): `stop()`, force
`totalSeconds = 0`, add the `alarming` class, `alarm.play()`. -/
def Timer.triggerAlarm (t : TimerState) (a : AlarmState) : TimerState × AlarmState :=
  let t1 := Timer.stop t
  ({ t1 with totalSeconds := 0, alarming := true }, a.play)

/-- The interval callback registered by `Timer.start()` (`src/app.js`
lines 169-182), evaluated at wall-clock reading `now` (`Date.now()`):
`elapsed = Math.floor((now - startTime) / 1000)`; CountUp sets
`totalSeconds = startSeconds + elapsed`; CountDown sets
`totalSeconds = Math.max(0, startSeconds - elapsed)` and triggers the alarm
when that reaches 0. -/
def Timer.tick (t : TimerState) (a : AlarmState) (now : Int) : TimerState × AlarmState :=
  let elapsed := Int.fdiv (now - t.startTime) 1000
  match t.mode with
  | Mode.up => ({ t with totalSeconds := t.startSeconds + elapsed }, a)
  | Mode.down =>
      let ts := max 0 (t.startSeconds - elapsed)
      let t1 := { t with totalSeconds := ts }
      if ts ≤ 0 then Timer.triggerAlarm t1 a else (t1, a)

/-- `Timer.start()` (`src/app.js` lines 156-183) at wall-clock reading `now`:
`alarm.init()` touches only the audio context; no-op if already running, or
if CountDown with `totalSeconds <= 0`; otherwise sets `running`, captures
`startTime = Date.now()` and `startSeconds = totalSeconds`, and registers the
interval. -/
def Timer.start (t : TimerState) (now : Int) : TimerState :=
  if t.running then t
  else if t.mode = Mode.down ∧ t.totalSeconds ≤ 0 then t
  else
    { t with running := true, intervalActive := true
             startTime := now, startSeconds := t.totalSeconds }

/-- `Timer.reset()` (`src/app.js` lines 194-204): `stopAlarm()`, `stop()`,
then `totalSeconds = targetSeconds` in CountDown mode and `0` in CountUp
mode. -/
def Timer.reset (t : TimerState) (a : AlarmState) : TimerState × AlarmState :=
  let p := Timer.stopAlarm t a
  let t1 := Timer.stop p.1
  let t2 :=
    if t1.mode = Mode.down then { t1 with totalSeconds := t1.targetSeconds }
    else { t1 with totalSeconds := 0 }
  (t2, p.2)

/-- `Timer.destroy()` (`src/app.js` lines 230-233): `stopAlarm()` then
`stop()`. -/
def Timer.destroy (t : TimerState) (a : AlarmState) : TimerState × AlarmState :=
  let p := Timer.stopAlarm t a
  (Timer.stop p.1, p.2)

/-- The mode-toggle click handler (`src/app.js` lines 97-105): guarded by
`running`; sets `mode` then calls `reset()`. -/
def Timer.setMode (t : TimerState) (a : AlarmState) (m : Mode) : TimerState × AlarmState :=
  if t.running then (t, a) else Timer.reset { t with mode := m } a

/-- Read the picker field selected by `unit` (`setH`/`setM`/`setS`). -/
def TimerState.getUnit (t : TimerState) : PickerUnit → Int
  | PickerUnit.h => t.setH
  | PickerUnit.m => t.setM
  | PickerUnit.s => t.setS

/-- Write the picker field selected by `unit`. -/
def TimerState.setUnit (t : TimerState) (u : PickerUnit) (v : Int) : TimerState :=
  match u with
  | PickerUnit.h => { t with setH := v }
  | PickerUnit.m => { t with setM := v }
  | PickerUnit.s => { t with setS := v }

/-- `max = unit === 'h' ? 23 : 59`. -/
def PickerUnit.maxVal : PickerUnit → Int
  | PickerUnit.h => 23
  | _ => 59

/-- `dir = btn.dataset.dir === 'up' ? 1 : -1`. -/
def dirVal (up : Bool) : Int := if up then 1 else -1

/-- `Timer._adjustPicker(unit, dir)` (`src/app.js` lines 146-154), including
the `if (this.running) return` guard of the arrow-click handler (line 110):
`this[key] = (this[key] + dir + max + 1) % (max + 1)` (the dividend is
nonnegative on the reachable range, where JS `%` agrees with Euclidean `%`),
then `targetSeconds = setH*3600 + setM*60 + setS` and
`totalSeconds = targetSeconds` — unconditionally, in both modes. -/
def Timer.adjustPicker (t : TimerState) (u : PickerUnit) (up : Bool) : TimerState :=
  if t.running then t
  else
    let m := u.maxVal
    let t1 := t.setUnit u ((t.getUnit u + dirVal up + m + 1) % (m + 1))
    let target := t1.setH * 3600 + t1.setM * 60 + t1.setS
    { t1 with targetSeconds := target, totalSeconds := target }

/-- The external events that can reach one timer card: user intents (buttons
guarded as in the source handlers) and firings of the registered interval
callback at a given wall-clock reading. -/
inductive Op where
  | start (now : Int) : Op
  | stop : Op
  | reset : Op
  | destroy : Op
  | setMode (m : Mode) : Op
  | adjust (u : PickerUnit) (up : Bool) : Op
  | stopAlarm : Op
  | tick (now : Int) : Op
deriving DecidableEq, Repr

/-- Apply one event to the (timer, shared alarm) pair.  `Op.tick` fires only
while the interval is registered: `clearInterval` synchronously prevents any
later firing, so a tick against an inactive interval is no event at all. -/
def applyOp (s : TimerState × AlarmState) : Op → TimerState × AlarmState
  | Op.start now => (Timer.start s.1 now, s.2)
  | Op.stop => (Timer.stop s.1, s.2)
  | Op.reset => Timer.reset s.1 s.2
  | Op.destroy => Timer.destroy s.1 s.2
  | Op.setMode m => Timer.setMode s.1 s.2 m
  | Op.adjust u up => (Timer.adjustPicker s.1 u up, s.2)
  | Op.stopAlarm => Timer.stopAlarm s.1 s.2
  | Op.tick now => if s.1.intervalActive then Timer.tick s.1 s.2 now else s

/-- Run a sequence of events. -/
def runOps (s : TimerState × AlarmState) : List Op → TimerState × AlarmState
  | [] => s
  | op :: rest => runOps (applyOp s op) rest

/-- The fresh shared alarm state built by `new AlarmSound()`: not playing. -/
def alarmInit : AlarmState := { playing := false, playCount := 0 }

/-- Once the interval is cancelled (`intervalActive = false`), any number of
subsequently elapsed tick deadlines leave the state untouched:
`clearInterval` synchronously prevents every later firing. -/
theorem runOps_ticks_inactive (s : TimerState × AlarmState)
    (h : s.1.intervalActive = false) :
    ∀ ns : List Int, runOps s (ns.map Op.tick) = s := by
  intro ns
  induction ns with
  | nil => rfl
  | cons n ns ih => simp [runOps, applyOp, h, ih]

/-- Running a concatenated event list is running the pieces in order. -/
theorem runOps_append (s : TimerState × AlarmState) (l1 l2 : List Op) :
    runOps s (l1 ++ l2) = runOps (runOps s l1) l2 := by
  induction l1 generalizing s with
  | nil => rfl
  | cons op l1 ih => simp [runOps, ih]

/-- In CountUp mode, any sequence of tick firings only rewrites
`totalSeconds`; mode, flags and the start anchors are untouched. -/
theorem runOps_upTicks (ns : List Int) (t : TimerState) (a : AlarmState)
    (hm : t.mode = Mode.up) (hi : t.intervalActive = true) :
    ∃ v : Int, runOps (t, a) (ns.map Op.tick) = ({ t with totalSeconds := v }, a) := by
  induction ns generalizing t with
  | nil => exact ⟨t.totalSeconds, rfl⟩
  | cons n ns ih =>
      have step : applyOp (t, a) (Op.tick n) =
          ({ t with totalSeconds := t.startSeconds + Int.fdiv (n - t.startTime) 1000 }, a) := by
        simp [applyOp, hi, Timer.tick, hm]
      have hm2 : ({ t with totalSeconds :=
          t.startSeconds + Int.fdiv (n - t.startTime) 1000 } : TimerState).mode = Mode.up := hm
      have hi2 : ({ t with totalSeconds :=
          t.startSeconds + Int.fdiv (n - t.startTime) 1000 } : TimerState).intervalActive
            = true := hi
      obtain ⟨v, hv⟩ := ih _ hm2 hi2
      refine ⟨v, ?_⟩
      rw [List.map_cons]
      show runOps (applyOp (t, a) (Op.tick n)) (ns.map Op.tick) = _
      rw [step]
      exact hv

/-- C1: while `running == true`, the tick callback recomputes `totalSeconds`
purely from the clock reading anchored at `startTime`/`startSeconds` —
CountUp gives `startSeconds + floor((now - start)/1000)`, CountDown gives
`max 0 (startSeconds - floor((now - start)/1000))` — the result is
independent of the previous `totalSeconds`, and in CountUp mode the value
after any sequence of (delayed or skipped) ticks ending at reading `now`
depends only on `now`. -/
theorem c1_tick_is_pure_recomputation (t : TimerState) (a : AlarmState) (now : Int)
    (hr : t.running = true) (hi : t.intervalActive = true) :
    (t.mode = Mode.up →
      (Timer.tick t a now).1.totalSeconds =
        t.startSeconds + Int.fdiv (now - t.startTime) 1000) ∧
    (t.mode = Mode.down →
      (Timer.tick t a now).1.totalSeconds =
        max 0 (t.startSeconds - Int.fdiv (now - t.startTime) 1000)) ∧
    (∀ v : Int,
      (Timer.tick { t with totalSeconds := v } a now).1.totalSeconds =
        (Timer.tick t a now).1.totalSeconds) ∧
    (t.mode = Mode.up → ∀ ns : List Int,
      (runOps (t, a) (ns.map Op.tick ++ [Op.tick now])).1.totalSeconds =
        t.startSeconds + Int.fdiv (now - t.startTime) 1000) := by
  refine ⟨?_, ?_, ?_, ?_⟩
  · intro hm
    simp [Timer.tick, hm]
  · intro hm
    simp only [Timer.tick, hm]
    split
    · rename_i hle
      simp [Timer.triggerAlarm, Timer.stop]
      omega
    · rfl
  · intro v
    cases hm : t.mode with
    | up => simp [Timer.tick, hm]
    | down => simp only [Timer.tick, hm]
  · intro hm ns
    rw [runOps_append]
    obtain ⟨v, hv⟩ := runOps_upTicks ns t a hm hi
    rw [hv]
    show (applyOp ({ t with totalSeconds := v }, a) (Op.tick now)).1.totalSeconds = _
    simp [applyOp, hi, Timer.tick, hm]

/-- A concrete running CountUp timer, started at wall clock 1000ms with
`totalSeconds = 0`. -/
def upRunning : TimerState :=
  { Timer.initState with
      mode := Mode.up, running := true, intervalActive := true,
      startTime := 1000, startSeconds := 0 }

/-- C1 witness: on the concrete running CountUp timer, a tick at reading
4500ms recomputes `totalSeconds` from the anchor (giving `0 + 3`). -/
theorem c1_witness :
    upRunning.running = true ∧ upRunning.intervalActive = true ∧
    (Timer.tick upRunning alarmInit 4500).1.totalSeconds =
      upRunning.startSeconds + Int.fdiv (4500 - upRunning.startTime) 1000 :=
  ⟨rfl, rfl, (c1_tick_is_pure_recomputation upRunning alarmInit 4500 rfl rfl).1 rfl⟩

/-- C2: on a running CountDown timer, a tick whose recomputed value reaches 0
cancels the poll (`stop()` inside `_triggerAlarm`), clears `running`, enters
the Alarming state, and invokes `alarm.play()` exactly once — and since the
interval is cancelled, no subsequent tick fires: the state (including the
play counter) is unchanged by any number of later tick deadlines. -/
theorem c2_countdown_zero_alarms_once (t : TimerState) (a : AlarmState) (now : Int)
    (hm : t.mode = Mode.down) (hr : t.running = true) (hi : t.intervalActive = true)
    (hz : t.startSeconds - Int.fdiv (now - t.startTime) 1000 ≤ 0) :
    (applyOp (t, a) (Op.tick now)).1.totalSeconds = 0 ∧
    (applyOp (t, a) (Op.tick now)).1.running = false ∧
    (applyOp (t, a) (Op.tick now)).1.intervalActive = false ∧
    (applyOp (t, a) (Op.tick now)).1.alarming = true ∧
    (applyOp (t, a) (Op.tick now)).2.playCount = a.playCount + 1 ∧
    (applyOp (t, a) (Op.tick now)).2.playing = true ∧
    ∀ ns : List Int,
      runOps (applyOp (t, a) (Op.tick now)) (ns.map Op.tick) = applyOp (t, a) (Op.tick now) := by
  have hts : max 0 (t.startSeconds - Int.fdiv (now - t.startTime) 1000) = (0 : Int) := by
    omega
  have key : applyOp (t, a) (Op.tick now) =
      ({ t with running := false, intervalActive := false,
                totalSeconds := 0, alarming := true }, a.play) := by
    simp [applyOp, hi, Timer.tick, hm, hts, Timer.triggerAlarm, Timer.stop, hr]
  rw [key]
  refine ⟨rfl, rfl, rfl, rfl, rfl, rfl, ?_⟩
  exact runOps_ticks_inactive _ rfl

/-- A concrete running CountDown timer: 5 seconds remaining, started at wall
clock 0. -/
def downRunning5 : TimerState :=
  { Timer.initState with
      mode := Mode.down, running := true, intervalActive := true,
      totalSeconds := 5, targetSeconds := 5, startTime := 0, startSeconds := 5 }

/-- C2 witness: on the concrete CountDown timer with 5s remaining, the tick
at reading 5000ms yields `totalSeconds = 0`, `running = false`, Alarming,
and exactly one `play()` call. -/
theorem c2_witness :
    (5 : Int) - Int.fdiv (5000 - 0) 1000 ≤ 0 ∧
    (applyOp (downRunning5, alarmInit) (Op.tick 5000)).1.totalSeconds = 0 ∧
    (applyOp (downRunning5, alarmInit) (Op.tick 5000)).1.running = false ∧
    (applyOp (downRunning5, alarmInit) (Op.tick 5000)).1.alarming = true ∧
    (applyOp (downRunning5, alarmInit) (Op.tick 5000)).2.playCount = alarmInit.playCount + 1 := by
  have h := c2_countdown_zero_alarms_once downRunning5 alarmInit 5000 rfl rfl rfl (by decide)
  exact ⟨by decide, h.1, h.2.1, h.2.2.2.1, h.2.2.2.2.1⟩

/-- A concrete non-running CountUp timer whose displayed value is 7 (e.g.
after a count-up run was stopped), with all picker units at 0. -/
def upStopped7 : TimerState :=
  { Timer.initState with mode := Mode.up, totalSeconds := 7 }

/-- C3 counterexample: on a non-running CountUp timer showing 7, one picker
step changes `totalSeconds` (to the recomputed `targetSeconds = 1`), so the
adjustment does NOT leave `totalSeconds` unchanged in CountUp mode:
`_adjustPicker` assigns `this.totalSeconds = this.targetSeconds` with no mode
check (`src/app.js` line 152, and likewise `_syncFromPicker` in
`src/unnamed/part_000`). -/
theorem c3_counterexample :
    upStopped7.running = false ∧ upStopped7.mode = Mode.up ∧
    ¬ (Timer.adjustPicker upStopped7 PickerUnit.s true).totalSeconds =
        upStopped7.totalSeconds := by
  decide

/-- C3 amended: for every non-running timer, a picker adjustment recomputes
`targetSeconds = setH*3600 + setM*60 + setS` from the updated units and sets
`totalSeconds = targetSeconds` unconditionally — in CountDown and CountUp
mode alike (the source has no mode check on this assignment). -/
theorem c3_adjust_recomputes_and_sets_total (t : TimerState) (u : PickerUnit) (up : Bool)
    (hr : t.running = false) :
    (Timer.adjustPicker t u up).targetSeconds =
      (Timer.adjustPicker t u up).setH * 3600 +
      (Timer.adjustPicker t u up).setM * 60 +
      (Timer.adjustPicker t u up).setS ∧
    (Timer.adjustPicker t u up).totalSeconds = (Timer.adjustPicker t u up).targetSeconds := by
  cases u <;> simp [Timer.adjustPicker, hr, TimerState.setUnit, TimerState.getUnit]

/-- C3 witness for the amended claim: a concrete adjustment (minutes +1 on
the fresh timer) yields `targetSeconds = 60 = totalSeconds`. -/
theorem c3_witness :
    Timer.initState.running = false ∧
    (Timer.adjustPicker Timer.initState PickerUnit.m true).targetSeconds =
      (Timer.adjustPicker Timer.initState PickerUnit.m true).setH * 3600 +
      (Timer.adjustPicker Timer.initState PickerUnit.m true).setM * 60 +
      (Timer.adjustPicker Timer.initState PickerUnit.m true).setS ∧
    (Timer.adjustPicker Timer.initState PickerUnit.m true).totalSeconds =
      (Timer.adjustPicker Timer.initState PickerUnit.m true).targetSeconds := by
  have h := c3_adjust_recomputes_and_sets_total Timer.initState PickerUnit.m true rfl
  exact ⟨rfl, h.1, h.2⟩

/-- C4: for every non-running timer and unit value in its natural range, a
single ±1 picker step sends the unit value `v` to `(v + dir) mod (max+1)`
(`max` is 23 for hours, 59 for minutes/seconds): the source computes
`(v + dir + max + 1) % (max + 1)`, which equals the Euclidean
`(v + dir) % (max + 1)`. -/
theorem c4_adjust_wraps_modularly (t : TimerState) (u : PickerUnit) (up : Bool)
    (hr : t.running = false) (h0 : 0 ≤ t.getUnit u) (h1 : t.getUnit u ≤ u.maxVal) :
    (Timer.adjustPicker t u up).getUnit u =
      (t.getUnit u + dirVal up) % (u.maxVal + 1) := by
  cases u <;> cases up <;>
    simp [Timer.adjustPicker, hr, TimerState.setUnit, TimerState.getUnit,
      PickerUnit.maxVal, dirVal] <;>
    omega

/-- A concrete non-running timer with hours at 23. -/
def hoursAt23 : TimerState := { Timer.initState with setH := 23 }

/-- C4 witness: incrementing hours at 23 wraps to `(23 + 1) % 24 = 0`. -/
theorem c4_witness :
    hoursAt23.running = false ∧ (0 : Int) ≤ hoursAt23.getUnit PickerUnit.h ∧
    hoursAt23.getUnit PickerUnit.h ≤ PickerUnit.h.maxVal ∧
    (Timer.adjustPicker hoursAt23 PickerUnit.h true).getUnit PickerUnit.h =
      (hoursAt23.getUnit PickerUnit.h + dirVal true) % (PickerUnit.h.maxVal + 1) := by
  refine ⟨rfl, by decide, by decide, ?_⟩
  exact c4_adjust_wraps_modularly hoursAt23 PickerUnit.h true rfl (by decide) (by decide)

/-- C5: `start()` is a no-op — the whole timer state is returned unchanged,
so no interval is registered and no field is altered — when already running,
and also when in CountDown mode with `totalSeconds <= 0`. -/
theorem c5_start_noop (t : TimerState) (now : Int)
    (h : t.running = true ∨ (t.mode = Mode.down ∧ t.totalSeconds ≤ 0)) :
    Timer.start t now = t := by
  unfold Timer.start
  rcases h with h | h
  · simp [h]
  · by_cases hr : t.running
    · simp [hr]
    · simp [hr, h]

/-- C5 witness: on the fresh timer (CountDown, `totalSeconds = 0`),
`start()` at wall clock 1234 returns the state unchanged. -/
theorem c5_witness :
    (Timer.initState.running = true ∨
      (Timer.initState.mode = Mode.down ∧ Timer.initState.totalSeconds ≤ 0)) ∧
    Timer.start Timer.initState 1234 = Timer.initState := by
  refine ⟨Or.inr ⟨rfl, by decide⟩, ?_⟩
  exact c5_start_noop Timer.initState 1234 (Or.inr ⟨rfl, by decide⟩)


/-- In the source an interval is registered exactly while `running` is set:
`start` sets both, `stop` (also via `_triggerAlarm`, `reset`, `destroy`)
clears both, nothing else touches them.  The equality `intervalActive =
running` is preserved by every event. -/
theorem interval_matches_running (s : TimerState × AlarmState)
    (h : s.1.intervalActive = s.1.running) (op : Op) :
    (applyOp s op).1.intervalActive = (applyOp s op).1.running := by
  obtain ⟨t, a⟩ := s
  replace h : t.intervalActive = t.running := h
  cases op with
  | start now =>
      by_cases hr : t.running
      · simp [applyOp, Timer.start, hr, h]
      · by_cases hc : t.mode = Mode.down ∧ t.totalSeconds ≤ 0 <;>
          simp [applyOp, Timer.start, hr, hc, h]
  | stop =>
      by_cases hr : t.running <;> simp [applyOp, Timer.stop, hr, h]
  | reset =>
      by_cases hr : t.running <;> cases hm : t.mode <;>
        simp [applyOp, Timer.reset, Timer.stopAlarm, Timer.stop, hr, hm, h]
  | destroy =>
      by_cases hr : t.running <;>
        simp [applyOp, Timer.destroy, Timer.stopAlarm, Timer.stop, hr, h]
  | setMode m =>
      by_cases hr : t.running <;> cases hm : m <;>
        simp [applyOp, Timer.setMode, Timer.reset, Timer.stopAlarm, Timer.stop, hr, h]
  | adjust u up =>
      by_cases hr : t.running <;> cases u <;>
        simp [applyOp, Timer.adjustPicker, TimerState.setUnit, hr, h]
  | stopAlarm =>
      simp [applyOp, Timer.stopAlarm, h]
  | tick now =>
      by_cases hi : t.intervalActive
      · have hr : t.running = true := h.symm.trans hi
        have happ : applyOp (t, a) (Op.tick now) = Timer.tick t a now := by
          simp [applyOp, hi]
        rw [happ]
        cases hm : t.mode with
        | up => simp [Timer.tick, hm, h]
        | down =>
            simp only [Timer.tick, hm]
            split
            · simp [Timer.triggerAlarm, Timer.stop, hr]
            · simp [h]
      · have happ : applyOp (t, a) (Op.tick now) = (t, a) := by
          simp [applyOp, hi]
        rw [happ]
        exact h

/-- The state written by a successful `start()` at reading `now`: `running`
set, interval registered, anchors captured. -/
def TimerState.startedAt (t : TimerState) (now : Int) : TimerState :=
  { t with running := true, intervalActive := true,
           startTime := now, startSeconds := t.totalSeconds }

/-- The state written by `stop()` on a running timer: `running` cleared and
interval cancelled. -/
def TimerState.halted (t : TimerState) : TimerState :=
  { t with running := false, intervalActive := false }

/-- `stop()` on a running timer is exactly the halted state. -/
theorem Timer.stop_of_running (t : TimerState) (hr : t.running = true) :
    Timer.stop t = t.halted := by
  simp [Timer.stop, hr, TimerState.halted]

/-- `start()` on a non-running timer that is not an exhausted countdown is
exactly the anchored started state. -/
theorem Timer.start_go (t : TimerState) (now : Int) (hr : t.running = false)
    (hc : ¬(t.mode = Mode.down ∧ t.totalSeconds ≤ 0)) :
    Timer.start t now = t.startedAt now := by
  simp [Timer.start, hr, hc, TimerState.startedAt]

/-- C6: `stop()` on a running timer clears `running` and cancels the
interval while leaving `totalSeconds`, `targetSeconds` and `mode` unchanged;
a subsequent `start()` anchors at the held value `v = totalSeconds`, so a
tick after `k` further whole seconds shows `v + k` (CountUp) or
`max 0 (v - k)` (CountDown) — not a value derived from the original target. -/
theorem c6_stop_frame_then_resume (t : TimerState) (a : AlarmState) (now k : Int)
    (hr : t.running = true) (hv : 0 ≤ t.totalSeconds) (hk : 0 ≤ k) :
    (Timer.stop t).running = false ∧
    (Timer.stop t).intervalActive = false ∧
    (Timer.stop t).totalSeconds = t.totalSeconds ∧
    (Timer.stop t).targetSeconds = t.targetSeconds ∧
    (Timer.stop t).mode = t.mode ∧
    (t.mode = Mode.up →
      (applyOp (Timer.start (Timer.stop t) now, a) (Op.tick (now + 1000 * k))).1.totalSeconds
        = t.totalSeconds + k) ∧
    (t.mode = Mode.down →
      (applyOp (Timer.start (Timer.stop t) now, a) (Op.tick (now + 1000 * k))).1.totalSeconds
        = max 0 (t.totalSeconds - k)) := by
  have hfd : Int.fdiv (now + 1000 * k - now) 1000 = k := by
    have harith : now + 1000 * k - now = 1000 * k := by ring
    rw [harith, Int.mul_fdiv_cancel_left k (by norm_num)]
  rw [Timer.stop_of_running t hr]
  refine ⟨rfl, rfl, rfl, rfl, rfl, ?_, ?_⟩
  · intro hm
    rw [Timer.start_go t.halted now rfl (by simp [TimerState.halted, hm])]
    have happ : applyOp (t.halted.startedAt now, a) (Op.tick (now + 1000 * k)) =
        Timer.tick (t.halted.startedAt now) a (now + 1000 * k) := by
      simp [applyOp, TimerState.startedAt]
    rw [happ]
    simp [Timer.tick, TimerState.startedAt, TimerState.halted, hm, hfd]
  · intro hm
    by_cases hz : t.totalSeconds ≤ 0
    · have hstart : Timer.start t.halted now = t.halted := by
        simp [Timer.start, TimerState.halted, hm, hz]
      rw [hstart]
      have happ : applyOp (t.halted, a) (Op.tick (now + 1000 * k)) = (t.halted, a) := by
        simp [applyOp, TimerState.halted]
      rw [happ]
      show t.totalSeconds = max 0 (t.totalSeconds - k)
      omega
    · rw [Timer.start_go t.halted now rfl (by simp [TimerState.halted, hm, hz])]
      have happ : applyOp (t.halted.startedAt now, a) (Op.tick (now + 1000 * k)) =
          Timer.tick (t.halted.startedAt now) a (now + 1000 * k) := by
        simp [applyOp, TimerState.startedAt]
      rw [happ]
      simp only [Timer.tick, TimerState.startedAt, TimerState.halted, hm, hfd]
      by_cases hle : max (0 : Int) (t.totalSeconds - k) ≤ 0
      · rw [if_pos hle]
        simp [Timer.triggerAlarm, Timer.stop]
        omega
      · rw [if_neg hle]

/-- C6 witness: the concrete running CountDown timer with 5s held is
stopped, restarted at wall clock 9000ms, and a tick 2s later shows
`max 0 (5 - 2) = 3`. -/
theorem c6_witness :
    downRunning5.running = true ∧ (0 : Int) ≤ downRunning5.totalSeconds ∧ (0 : Int) ≤ 2 ∧
    (Timer.stop downRunning5).totalSeconds = downRunning5.totalSeconds ∧
    (applyOp (Timer.start (Timer.stop downRunning5) 9000, alarmInit)
        (Op.tick (9000 + 1000 * 2))).1.totalSeconds =
      max 0 (downRunning5.totalSeconds - 2) := by
  have h := c6_stop_frame_then_resume downRunning5 alarmInit 9000 2 rfl (by decide) (by decide)
  exact ⟨rfl, by decide, by decide, h.2.2.1, h.2.2.2.2.2.2 rfl⟩

/-- C7: from any state — Idle, Running or Alarming — `reset()` stops the
alarm (card leaves Alarming, shared alarm silenced), stops running
(cancelling the interval; the hypothesis `intervalActive = running` is the
source invariant proved in `interval_matches_running`), and sets
`totalSeconds` to `targetSeconds` in CountDown mode and to `0` in CountUp
mode, leaving the timer Idle with `mode` and `targetSeconds` untouched. -/
theorem c7_reset_returns_to_idle (t : TimerState) (a : AlarmState)
    (hir : t.intervalActive = t.running) :
    (Timer.reset t a).1.running = false ∧
    (Timer.reset t a).1.intervalActive = false ∧
    (Timer.reset t a).1.alarming = false ∧
    (Timer.reset t a).2.playing = false ∧
    (Timer.reset t a).1.totalSeconds =
      (if t.mode = Mode.down then t.targetSeconds else 0) ∧
    (Timer.reset t a).1.mode = t.mode ∧
    (Timer.reset t a).1.targetSeconds = t.targetSeconds := by
  by_cases hr : t.running <;> cases hm : t.mode <;>
    simp_all [Timer.reset, Timer.stopAlarm, Timer.stop, AlarmState.stopSound, hr, hm]

/-- A concrete Alarming CountDown timer (target 5, display 0, alarm
playing). -/
def alarming5 : TimerState :=
  { Timer.initState with mode := Mode.down, targetSeconds := 5, alarming := true }

/-- C7 witness: `reset()` on the concrete Alarming countdown timer silences
the alarm and restores `totalSeconds = targetSeconds = 5`, Idle. -/
theorem c7_witness :
    alarming5.intervalActive = alarming5.running ∧
    (Timer.reset alarming5 { playing := true, playCount := 1 }).1.running = false ∧
    (Timer.reset alarming5 { playing := true, playCount := 1 }).1.alarming = false ∧
    (Timer.reset alarming5 { playing := true, playCount := 1 }).2.playing = false ∧
    (Timer.reset alarming5 { playing := true, playCount := 1 }).1.totalSeconds =
      (if alarming5.mode = Mode.down then alarming5.targetSeconds else 0) := by
  have h := c7_reset_returns_to_idle alarming5 { playing := true, playCount := 1 } rfl
  exact ⟨rfl, h.1, h.2.2.1, h.2.2.2.1, h.2.2.2.2.1⟩

/-- C8 counterexample: with an arbitrary (backwards-jumping) wall clock the
claim fails in CountUp mode.  Switch to CountUp, `start()` at reading
10000ms, then a tick at reading 8000ms: `elapsed = floor(-2000/1000) = -2`
and `totalSeconds = 0 + (-2) = -2 < 0`. -/
theorem c8_counterexample :
    (runOps (Timer.initState, alarmInit)
      [Op.setMode Mode.up, Op.start 10000, Op.tick 8000]).1.totalSeconds < 0 := by
  decide

/-- The tick event at reading `now` is consistent with a monotone wall clock:
while an interval is registered, its callback never observes a reading
earlier than the captured start anchor. -/
def clockOk (s : TimerState × AlarmState) : Op → Bool
  | Op.tick now => !s.1.intervalActive || decide (s.1.startTime ≤ now)
  | _ => true

/-- Every tick in the event list reads a monotone wall clock (relative to
the start anchor in force when it fires). -/
def clockMono : TimerState × AlarmState → List Op → Bool
  | _, [] => true
  | s, op :: rest => clockOk s op && clockMono (applyOp s op) rest

/-- The inductive invariant behind `totalSeconds >= 0`: all second counters
are nonnegative and the picker units sit in their natural ranges. -/
def SecondsInv (t : TimerState) : Prop :=
  0 ≤ t.totalSeconds ∧ 0 ≤ t.targetSeconds ∧ 0 ≤ t.startSeconds ∧
  0 ≤ t.setH ∧ t.setH ≤ 23 ∧ 0 ≤ t.setM ∧ t.setM ≤ 59 ∧ 0 ≤ t.setS ∧ t.setS ≤ 59

/-- One event preserves `SecondsInv`, provided a tick reads a monotone
clock. -/
theorem secondsInv_step (s : TimerState × AlarmState) (op : Op)
    (h : SecondsInv s.1) (hc : clockOk s op = true) :
    SecondsInv (applyOp s op).1 := by
  obtain ⟨t, a⟩ := s
  replace h : SecondsInv t := h
  obtain ⟨h1, h2, h3, h4, h5, h6, h7, h8, h9⟩ := h
  cases op with
  | start now =>
      by_cases hr : t.running
      · simp [applyOp, Timer.start, hr, SecondsInv]
        omega
      · by_cases hcond : t.mode = Mode.down ∧ t.totalSeconds ≤ 0 <;>
          · simp [applyOp, Timer.start, hr, hcond, SecondsInv]
            omega
  | stop =>
      by_cases hr : t.running <;>
        · simp [applyOp, Timer.stop, hr, SecondsInv]
          omega
  | reset =>
      by_cases hr : t.running <;> cases hm : t.mode <;>
        · simp [applyOp, Timer.reset, Timer.stopAlarm, Timer.stop, hr, hm, SecondsInv]
          omega
  | destroy =>
      by_cases hr : t.running <;>
        · simp [applyOp, Timer.destroy, Timer.stopAlarm, Timer.stop, hr, SecondsInv]
          omega
  | setMode m =>
      by_cases hr : t.running <;> cases hm : m <;>
        · simp [applyOp, Timer.setMode, Timer.reset, Timer.stopAlarm, Timer.stop,
            hr, hm, SecondsInv]
          omega
  | adjust u up =>
      by_cases hr : t.running
      · simp [applyOp, Timer.adjustPicker, hr, SecondsInv]
        omega
      · cases u <;> cases up <;>
          · simp [applyOp, Timer.adjustPicker, TimerState.setUnit, TimerState.getUnit,
              PickerUnit.maxVal, dirVal, hr, SecondsInv]
            omega
  | stopAlarm =>
      simp [applyOp, Timer.stopAlarm, SecondsInv]
      omega
  | tick now =>
      by_cases hi : t.intervalActive
      · have hle : t.startTime ≤ now := by
          simp [clockOk, hi] at hc
          exact hc
        have hf : 0 ≤ Int.fdiv (now - t.startTime) 1000 :=
          Int.fdiv_nonneg (by omega) (by norm_num)
        have happ : applyOp (t, a) (Op.tick now) = Timer.tick t a now := by
          simp [applyOp, hi]
        rw [happ]
        cases hm : t.mode with
        | up =>
            simp [Timer.tick, hm, SecondsInv]
            omega
        | down =>
            by_cases hr : t.running <;>
            · simp only [Timer.tick, hm]
              split
              · simp [Timer.triggerAlarm, Timer.stop, hr, SecondsInv]
                omega
              · simp [SecondsInv]
                omega
      · have happ : applyOp (t, a) (Op.tick now) = (t, a) := by
          simp [applyOp, hi]
        rw [happ]
        exact ⟨h1, h2, h3, h4, h5, h6, h7, h8, h9⟩

/-- `SecondsInv` holds after any monotone-clock event sequence. -/
theorem secondsInv_runOps (s : TimerState × AlarmState) (ops : List Op)
    (h : SecondsInv s.1) (hm : clockMono s ops = true) :
    SecondsInv (runOps s ops).1 := by
  induction ops generalizing s with
  | nil => exact h
  | cons op rest ih =>
      simp only [clockMono, Bool.and_eq_true] at hm
      exact ih (applyOp s op) (secondsInv_step s op h hm.1) hm.2

/-- C8 amended: `totalSeconds >= 0` holds after every sequence of
operations and tick firings from the fresh state, provided each tick reads a
wall clock no earlier than the start anchor in force (a monotone clock).
Without that proviso the claim fails: a CountUp tick at a reading before
`startWallClock` drives `totalSeconds` negative (see the counterexample). -/
theorem c8_amended_total_nonneg (ops : List Op)
    (hm : clockMono (Timer.initState, alarmInit) ops = true) :
    0 ≤ (runOps (Timer.initState, alarmInit) ops).1.totalSeconds := by
  have h0 : SecondsInv Timer.initState := by
    unfold SecondsInv
    decide
  exact (secondsInv_runOps (Timer.initState, alarmInit) ops h0 hm).1

/-- C8 witness: a concrete monotone-clock run — set 1 second, start at
reading 1000ms, tick at 2500ms — ends with `totalSeconds >= 0`. -/
theorem c8_witness :
    clockMono (Timer.initState, alarmInit)
      [Op.adjust PickerUnit.s true, Op.start 1000, Op.tick 2500] = true ∧
    0 ≤ (runOps (Timer.initState, alarmInit)
      [Op.adjust PickerUnit.s true, Op.start 1000, Op.tick 2500]).1.totalSeconds :=
  ⟨by decide, c8_amended_total_nonneg _ (by decide)⟩

/-- C9: `destroy()` stops any active alarm (`playing = false`) and
synchronously cancels the pending periodic callback (the hypothesis
`intervalActive = running` is the source invariant proved in
`interval_matches_running`), so after it returns, any number of further
elapsed tick deadlines at arbitrary later clock readings mutate nothing and
trigger no alarm: the destroyed state is a fixpoint of every tick
sequence. -/
theorem c9_destroy_cancels_callback (t : TimerState) (a : AlarmState)
    (hir : t.intervalActive = t.running) :
    (Timer.destroy t a).1.intervalActive = false ∧
    (Timer.destroy t a).1.running = false ∧
    (Timer.destroy t a).2.playing = false ∧
    ∀ ns : List Int, runOps (Timer.destroy t a) (ns.map Op.tick) = Timer.destroy t a := by
  have hi : (Timer.destroy t a).1.intervalActive = false := by
    by_cases hr : t.running <;>
      simp_all [Timer.destroy, Timer.stopAlarm, Timer.stop]
  refine ⟨hi, ?_, ?_, runOps_ticks_inactive _ hi⟩
  · by_cases hr : t.running <;>
      simp [Timer.destroy, Timer.stopAlarm, Timer.stop, hr]
  · simp [Timer.destroy, Timer.stopAlarm, AlarmState.stopSound]

/-- C9 witness: destroying the concrete running CountDown timer cancels its
interval, and two later tick deadlines (readings 20000ms and 30000ms) leave
the destroyed state untouched. -/
theorem c9_witness :
    downRunning5.intervalActive = downRunning5.running ∧
    (Timer.destroy downRunning5 alarmInit).1.intervalActive = false ∧
    runOps (Timer.destroy downRunning5 alarmInit) ([20000, 30000].map Op.tick) =
      Timer.destroy downRunning5 alarmInit := by
  have h := c9_destroy_cancels_callback downRunning5 alarmInit rfl
  exact ⟨rfl, h.1, h.2.2.2 [20000, 30000]⟩

/-- A two-card screen (the `ap` mode creates two `Timer` instances) with the
single module-level alarm (`const alarm = new AlarmSound()`, `src/app.js`
line 56) that both cards route `play`/`stop` through: the one `playing` flag
is process-wide shared state. -/
structure World where
  t1 : TimerState
  t2 : TimerState
  alarm : AlarmState
deriving DecidableEq, Repr

/-- `stopAlarm()` invoked on the first (`first = true`) or second card: it
clears only that card's `alarming` class but stops the one shared alarm. -/
def World.ackAlarm (w : World) (first : Bool) : World :=
  if first then
    { w with t1 := (Timer.stopAlarm w.t1 w.alarm).1, alarm := (Timer.stopAlarm w.t1 w.alarm).2 }
  else
    { w with t2 := (Timer.stopAlarm w.t2 w.alarm).1, alarm := (Timer.stopAlarm w.t2 w.alarm).2 }

/-- C10: with both cards Alarming, acknowledging either one sets the shared
`playing` flag to false — the audible alarm of both cards goes silent — while
the other card's Alarming indicator (its `alarming` class) remains set. -/
theorem c10_shared_alarm_single_ack (w : World) (first : Bool)
    (h1 : w.t1.alarming = true) (h2 : w.t2.alarming = true) :
    (w.ackAlarm first).alarm.playing = false ∧
    (first = true →
      (w.ackAlarm first).t1.alarming = false ∧ (w.ackAlarm first).t2.alarming = true) ∧
    (first = false →
      (w.ackAlarm first).t2.alarming = false ∧ (w.ackAlarm first).t1.alarming = true) := by
  cases first <;>
    simp [World.ackAlarm, Timer.stopAlarm, AlarmState.stopSound, h1, h2]

/-- A concrete world: two Alarming countdown cards, shared alarm playing
(after two `play()` calls). -/
def bothAlarming : World :=
  { t1 := alarming5
    t2 := { alarming5 with targetSeconds := 3 }
    alarm := { playing := true, playCount := 2 } }

/-- C10 witness: acknowledging the first card of the concrete two-Alarming
world silences the shared alarm while the second card stays Alarming. -/
theorem c10_witness :
    bothAlarming.t1.alarming = true ∧ bothAlarming.t2.alarming = true ∧
    (bothAlarming.ackAlarm true).alarm.playing = false ∧
    (bothAlarming.ackAlarm true).t1.alarming = false ∧
    (bothAlarming.ackAlarm true).t2.alarming = true := by
  have h := c10_shared_alarm_single_ack bothAlarming true rfl rfl
  exact ⟨rfl, rfl, h.1, (h.2.1 rfl).1, (h.2.1 rfl).2⟩
